import Mathlib

/-!
# Verification of the `timestamp` retimestamping tool

Shallow embedding of the repository's JavaScript sources:

* `src/timestamp.js` — per-file mode: EXIF / filename derived modification times.
* `src/unnamed/part_001` (first document) — revised per-file mode with a changed
  time regex, `--quick` / `--nosummary` flags and a JSON run-summary artifact.
* `src/unnamed/part_001` (second document) — per-subdirectory ("dirstamp") mode
  stamping year/month directories.

The filename parser is embedded as a backtracking matcher with exactly the
semantics of the two JavaScript regular expressions

  `/(\d{2,4}.?\d{2}.?\d{2})[^\d]*(\d{0,2}.?\d{0,2}.?\d{0,2})/miu`      (timestamp.js)
  `/(\d{2,4}.?\d{2}.?\d{2})[^\d]*(\d{0,2}.?\d{0,2}[^-\d]?\d{0,2})/miu` (part_001)

on `.exec`: leftmost match, greedy quantifiers with backtracking, tried
longest-first.  A bounded counted repetition `\d{m,n}` is encoded as the
ordered alternation of its exact-count expansions (n first), which is the
backtracking order of the original quantifier.
-/

namespace Timestamp

/-- ECMAScript line terminators: `.` (without the `s` flag) matches any
character except these. -/
def isLineTerm (c : Char) : Bool :=
  c.toNat == 10 || c.toNat == 13 || c.toNat == 0x2028 || c.toNat == 0x2029

/-- What `.` matches in the JavaScript regexes (no `s` flag). -/
def isDotChar (c : Char) : Bool := !(isLineTerm c)

/-- ECMAScript `String.prototype.trim` whitespace (WhiteSpace ∪ LineTerminator). -/
def isJsWs (c : Char) : Bool :=
  c.toNat == 9 || c.toNat == 10 || c.toNat == 11 || c.toNat == 12 ||
  c.toNat == 13 || c.toNat == 32 || c.toNat == 0xA0 || c.toNat == 0x1680 ||
  (0x2000 ≤ c.toNat && c.toNat ≤ 0x200A) || c.toNat == 0x2028 ||
  c.toNat == 0x2029 || c.toNat == 0x202F || c.toNat == 0x205F ||
  c.toNat == 0x3000 || c.toNat == 0xFEFF

/-- Longest whitespace-free-tail trim from the right, structurally. -/
def trimRight : List Char → List Char
  | [] => []
  | c :: cs =>
    match trimRight cs with
    | [] => if isJsWs c then [] else [c]
    | d :: ds => c :: d :: ds

/-- Models `String.prototype.trim`. -/
def jsTrim (l : List Char) : List Char := trimRight (l.dropWhile isJsWs)

/-- Backtracking alternative: first branch, else the (lazily thunked) second. -/
def orElseO {α : Type} (a : Option α) (b : Unit → Option α) : Option α :=
  match a with
  | some x => some x
  | none => b ()

/-- Match exactly one `\d` (ECMAScript `\d` = `[0-9]` = `Char.isDigit`). -/
def digit1 (s : List Char) : Option (List Char × List Char) :=
  match s with
  | [] => none
  | c :: cs => if c.isDigit then some ([c], cs) else none

/-- Sequencing of two sub-matchers, concatenating their consumed text. -/
def seqD (a b : List Char → Option (List Char × List Char))
    (s : List Char) : Option (List Char × List Char) :=
  match a s with
  | none => none
  | some p =>
    match b p.2 with
    | none => none
    | some q => some (p.1 ++ q.1, q.2)

/-- Match the empty string (the 0-repetition case of `\d{0,2}`). -/
def digits0 (s : List Char) : Option (List Char × List Char) := some ([], s)

/-- Matcher for `\d{2}`. -/
def digits2 : List Char → Option (List Char × List Char) := seqD digit1 digit1

/-- Matcher for `\d{3}`. -/
def digits3 : List Char → Option (List Char × List Char) := seqD digits2 digit1

/-- Matcher for `\d{4}`. -/
def digits4 : List Char → Option (List Char × List Char) := seqD digits3 digit1

/-- Ordered alternation of sub-matchers (backtracking order of a counted
greedy repetition, longest first), feeding a continuation. -/
def altD {α : Type} (opts : List (List Char → Option (List Char × List Char)))
    (s : List Char) (k : List Char → List Char → Option α) : Option α :=
  match opts with
  | [] => none
  | f :: rest =>
    orElseO ((f s).bind (fun p => k p.1 p.2)) (fun _ => altD rest s k)

/-- Greedy `.?`: try to consume one (non-line-terminator) character, else none. -/
def optDot {α : Type} (s : List Char) (k : List Char → List Char → Option α) :
    Option α :=
  match s with
  | [] => k [] []
  | c :: cs =>
    if isDotChar c then orElseO (k [c] cs) (fun _ => k [] (c :: cs))
    else k [] (c :: cs)

/-- Greedy `[^-\d]?` (the part_001 revision's minute/second divider). -/
def optNotDashDigit {α : Type} (s : List Char)
    (k : List Char → List Char → Option α) : Option α :=
  match s with
  | [] => k [] []
  | c :: cs =>
    if !c.isDigit && c ≠ '-' then orElseO (k [c] cs) (fun _ => k [] (c :: cs))
    else k [] (c :: cs)

/-- The maximal non-digit run at the head, with the remainder. -/
def nonDigitTake : List Char → List Char × List Char
  | [] => ([], [])
  | c :: cs =>
    if c.isDigit then ([], c :: cs)
    else
      match nonDigitTake cs with
      | (run, rest) => (c :: run, rest)

/-- Backtracking for greedy `[^\d]*`: give back one character at a time,
longest consumption first. -/
def starAux {α : Type} : List Char → List Char → (List Char → Option α) →
    Option α
  | [], rest, k => k rest
  | c :: run, rest, k =>
    orElseO (starAux run rest k) (fun _ => k (c :: (run ++ rest)))

/-- Greedy `[^\d]*` between the date group and the time group. -/
def starNonDigit {α : Type} (s : List Char) (k : List Char → Option α) :
    Option α :=
  match nonDigitTake s with
  | (run, rest) => starAux run rest k

/-- Attempt of `timeStampRegex` of `src/timestamp.js` at the current position:
`(\d{2,4}.?\d{2}.?\d{2})[^\d]*(\d{0,2}.?\d{0,2}.?\d{0,2})`, returning the two
captured groups. -/
def matchTSAt (s : List Char) : Option (List Char × List Char) :=
  altD [digits4, digits3, digits2] s (fun a1 r1 =>
  optDot r1 (fun a2 r2 =>
  altD [digits2] r2 (fun a3 r3 =>
  optDot r3 (fun a4 r4 =>
  altD [digits2] r4 (fun a5 r5 =>
  starNonDigit r5 (fun r6 =>
  altD [digits2, digit1, digits0] r6 (fun b1 r7 =>
  optDot r7 (fun b2 r8 =>
  altD [digits2, digit1, digits0] r8 (fun b3 r9 =>
  optDot r9 (fun b4 r10 =>
  altD [digits2, digit1, digits0] r10 (fun b5 _ =>
  some (a1 ++ a2 ++ a3 ++ a4 ++ a5, b1 ++ b2 ++ b3 ++ b4 ++ b5))))))))))))

/-- Attempt of the revised `timeStampRegex` of `src/unnamed/part_001`
(`[^-\d]?` between minutes and seconds) at the current position. -/
def matchTS2At (s : List Char) : Option (List Char × List Char) :=
  altD [digits4, digits3, digits2] s (fun a1 r1 =>
  optDot r1 (fun a2 r2 =>
  altD [digits2] r2 (fun a3 r3 =>
  optDot r3 (fun a4 r4 =>
  altD [digits2] r4 (fun a5 r5 =>
  starNonDigit r5 (fun r6 =>
  altD [digits2, digit1, digits0] r6 (fun b1 r7 =>
  optDot r7 (fun b2 r8 =>
  altD [digits2, digit1, digits0] r8 (fun b3 r9 =>
  optNotDashDigit r9 (fun b4 r10 =>
  altD [digits2, digit1, digits0] r10 (fun b5 _ =>
  some (a1 ++ a2 ++ a3 ++ a4 ++ a5, b1 ++ b2 ++ b3 ++ b4 ++ b5))))))))))))

/-- Models `RegExp.prototype.exec`: leftmost successful attempt. -/
def execRegex {α : Type} (m : List Char → Option α) : List Char → Option α
  | [] => m []
  | c :: cs => orElseO (m (c :: cs)) (fun _ => execRegex m (cs))

/-! ## `parseFileName` normalization pipeline (`src/timestamp.js` lines 136–170,
`src/unnamed/part_001` lines 146–180; identical apart from the regex). -/

/-- Models `fileName.slice(0, -4)` — "remove file extension". -/
def jsSlice4 (s : List Char) : List Char := s.take (s.length - 4)

/-- The date normalization `match[1].trim().replace(/[^\d]/g, '-')`. -/
def dateFromGroup (g1 : List Char) : List Char :=
  (jsTrim g1).map (fun c => if c.isDigit then c else '-')

/-- The `separatorsCount` computation
`Array.from(time).filter(elem => notNumberRegEx.test(elem)).length`, including
the ECMAScript statefulness of `.test` on the `/g`-flagged `notNumberRegEx`:
after a successful test its `lastIndex` is 1, so the next test on a
single-character string fails (and resets `lastIndex`) whatever the character.
The `Bool` argument is "lastIndex is 1". -/
def sepCountAux : List Char → Bool → Nat
  | [], _ => 0
  | c :: cs, false =>
    if c.isDigit then sepCountAux cs false else 1 + sepCountAux cs true
  | _ :: cs, true => sepCountAux cs false

def sepCount (l : List Char) : Nat := sepCountAux l false

/-- Models `.match(/.{1,2}/g)` on an all-digit string: chunks of two, a final odd
digit alone.  (In the source the result of `.match` is `null` for the empty
string and `.join` would throw; that path is unreachable from a successful
`timeStampRegex` match, whose nonempty group 2 always begins with a digit.) -/
def chunk2 : List Char → List (List Char)
  | [] => []
  | [c] => [[c]]
  | c :: d :: rest => [c, d] :: chunk2 rest

/-- Models `.join(':')`. -/
def joinColon : List (List Char) → List Char
  | [] => []
  | [g] => g
  | g :: gs => g ++ ':' :: joinColon gs

/-- The time-group normalization of `parseFileName`: colon-substitution,
separator counting, optional re-chunking, `00:00:00` default, and the
`:00` seconds padding. -/
def timeFromGroup (g2 : List Char) : List Char :=
  let time0 := (jsTrim g2).map (fun c => if c.isDigit then c else ':')
  let sc := sepCount time0
  let time1 :=
    if sc ≠ 0 then
      if sc < 2 then joinColon (chunk2 (time0.filter Char.isDigit))
      else time0
    else ['0', '0', ':', '0', '0', ':', '0', '0']
  if time1.length ≠ 0 ∧ time1.length < 8 then time1 ++ [':', '0', '0']
  else time1

/-- The function `parseFileName` of `src/timestamp.js`, on the character list of the file
name; returns `[]` (the empty string) when `timeStampRegex` does not match. -/
def parseFileNameL (fileName : List Char) : List Char :=
  match execRegex matchTSAt (jsSlice4 fileName) with
  | some g => dateFromGroup g.1 ++ ' ' :: timeFromGroup g.2
  | none => []

/-- The function `parseFileName` of `src/unnamed/part_001` (revised regex). -/
def parseFileNameV2L (fileName : List Char) : List Char :=
  match execRegex matchTS2At (jsSlice4 fileName) with
  | some g => dateFromGroup g.1 ++ ' ' :: timeFromGroup g.2
  | none => []

/-- String-level `parseFileName` (`src/timestamp.js`). -/
def parseFileName (fileName : String) : String :=
  String.mk (parseFileNameL fileName.data)

/-- String-level `parseFileName` (`src/unnamed/part_001` revision). -/
def parseFileNameV2 (fileName : String) : String :=
  String.mk (parseFileNameV2L fileName.data)

/-! ## Directory ("dirstamp") mode — `src/unnamed/part_001`, second document.

A year directory `YYYY` gets target `new Date(`${year}-12-31T23:59:59`)`;
a month-named subdirectory gets
`new Date(`${year}-${formattedMonth}-${formattedDay}T23:59:59`)` with
`formattedDay = new Date(year, month - 1, 0).getDate()`; an "all"-marker
subdirectory gets `new Date(`${year}-01-01T00:00:01`)`. -/

/-- Proleptic-Gregorian leap-year rule of ECMAScript `Date`. -/
def isLeapYear (y : Nat) : Bool :=
  (y % 4 == 0 && y % 100 != 0) || y % 400 == 0

/-- Number of days in month `m` (1 = january … 12 = december) of year `y`. -/
def daysInMonth (y m : Nat) : Nat :=
  if m = 2 then (if isLeapYear y then 29 else 28)
  else if m = 4 ∨ m = 6 ∨ m = 9 ∨ m = 11 then 30
  else 31

/-- Models `new Date(year, month - 1, 0).getDate()` for human month `month`:
per ECMAScript argument normalization, day 0 of 0-based month `month - 1`
is the last day of the *previous* calendar month — December of `year - 1`
(31 days) when `month = 1`, else month `month - 1` of `year`. -/
def jsLastDayArg (year month : Nat) : Nat :=
  if month = 1 then 31 else daysInMonth year (month - 1)

/-- Models `month.toString(10).padStart(2, '0')`. -/
def pad2 (n : Nat) : String :=
  if n < 10 then "0" ++ toString n else toString n

/-- Target timestamp string built for a year directory. -/
def yearDirTarget (year : Nat) : String :=
  toString year ++ "-12-31T23:59:59"

/-- Target timestamp string built for a month-named subdirectory. -/
def monthDirTarget (year month : Nat) : String :=
  toString year ++ "-" ++ pad2 month ++ "-" ++
    pad2 (jsLastDayArg year month) ++ "T23:59:59"

/-- Target timestamp string built for an "all"-marker subdirectory. -/
def allDirTarget (year : Nat) : String :=
  toString year ++ "-01-01T00:00:01"

/-- The array `months.en` (index 0 is the `'dummy'` placeholder). -/
def monthsEn : List String :=
  ["dummy", "january", "february", "march", "april", "may", "june", "july",
   "august", "september", "october", "november", "december"]

/-- The array `months.ro`. -/
def monthsRo : List String :=
  ["dummy", "ianuarie", "februarie", "martie", "aprilie", "mai", "iunie",
   "iulie", "august", "septembrie", "octombrie", "noiembrie", "decembrie"]

/-- Tests whether `p` occurs at the head of `s`. -/
def startsWithL : List Char → List Char → Bool
  | [], _ => true
  | _ :: _, [] => false
  | p :: ps, c :: cs => p == c && startsWithL ps cs

/-- Models `String.prototype.includes` — substring occurrence. -/
def containsSubL (pat : List Char) : List Char → Bool
  | [] => startsWithL pat []
  | c :: cs => startsWithL pat (c :: cs) || containsSubL pat cs

def containsSub (s pat : String) : Bool := containsSubL pat.data s.data

/-- Tests whether `pat` occurs at the end of `s` (suffix test). -/
def endsWithL (pat s : List Char) : Bool := startsWithL pat.reverse s.reverse

/-- The subdirectory loop's month resolution:
`let month = 0; if (months.en.includes(n)) month = months.en.indexOf(n);
if (months.ro.includes(n)) month = months.ro.indexOf(n);`. -/
def subdirMonth (name : String) : Nat :=
  let m1 := if monthsEn.contains name then monthsEn.indexOf name else 0
  if monthsRo.contains name then monthsRo.indexOf name else m1

/-- The guard `subdir.name.includes('--') && (subdir.name.includes('toate') ||
subdir.name.includes('all'))`. -/
def allMarker (name : String) : Bool :=
  containsSub name "--" && (containsSub name "toate" || containsSub name "all")

/-- A modification-time write (`fs.utimes` via `updateTimes`) with the
target timestamp it applies. -/
inductive DirEffect : Type
  | setTime (target : String)
deriving DecidableEq

/-- One iteration of the subdirectory loop (part_001 second document,
lines 505–543) for subdirectory `name` of year directory `year`.
`mtimeDiffers target` abstracts the external
`mtime.toISOString() !== new Date(target).toISOString()` guard (stat result
and `Date` conversion are external capabilities). -/
def processSubdir (year : Nat) (name : String) (mtimeDiffers : String → Bool) :
    List DirEffect :=
  let month := subdirMonth name
  (if month > 0 then
    (if mtimeDiffers (monthDirTarget year month) then
      [DirEffect.setTime (monthDirTarget year month)]
     else [])
   else []) ++
  (if allMarker name then
    (if mtimeDiffers (allDirTarget year) then
      [DirEffect.setTime (allDirTarget year)]
     else [])
   else [])

/-! ## Per-file reconciliation (`processFile` and its collaborators)

External capabilities (exiftool, `stat`, `touch`) are modelled as an
environment of pure functions; every external invocation is recorded as an
`Effect` so that claims about which calls occur can be stated. -/

/-- An external-process invocation made while processing one item. -/
inductive Effect : Type
  | exifCall (file : String)
  | statCall (file : String)
  | touchCall (stamp file : String)
deriving DecidableEq

/-- The run's mutable state: the `skipped`/`processed`/`errors` counters,
`exitCode`, and `summaryObj.files` (part_001's summary collector). -/
structure RunState where
  skipped : Nat
  processed : Nat
  errors : Nat
  exitCode : Nat
  summaryFiles : List String
deriving DecidableEq

/-- Counters at program start. -/
def initState : RunState :=
  { skipped := 0, processed := 0, errors := 0, exitCode := 0,
    summaryFiles := [] }

/-- The external world and the run's configuration.
`exifField f` models `exiftool -m -j` + `JSON.parse` + `DateTimeOriginal`
lookup: `.error` = the `catch` branch (transport/parse failure),
`.ok none` = no record or field absent, `.ok (some v)` = the field's value.
`statRaw f` is the raw `stat -c %y` output (`none` = the stat `catch`
branch).  `touchOk stamp f` tells whether `touch -cm --date=...` succeeds. -/
structure Env where
  supportsExif : Bool
  skipEXIF : Bool
  skipSummary : Bool
  summaryWriteOk : Bool
  currentDate : String
  exifField : String → Except Unit (Option String)
  statRaw : String → Option String
  touchOk : String → String → Bool

/-- The image test guarding the exiftool call:
`/(?:jpe?g)|(?:png)|(?:gif)$/i.test(file)`.  Only the `gif` alternative is
anchored by `$`; `jpg`, `jpeg` and `png` match anywhere in the (full) path,
case-insensitively. -/
def imageRegexTest (file : String) : Bool :=
  let l := file.data.map Char.toLower
  containsSubL "jpg".data l || containsSubL "jpeg".data l ||
  containsSubL "png".data l || startsWithL "gif".data.reverse l.reverse

/-- In `exifObj['DateTimeOriginal'].trim().replace(':', '-').replace(':', '-')`,
the first replacement step (first occurrence only). -/
def replaceFirstColonDash : List Char → List Char
  | [] => []
  | c :: cs => if c = ':' then '-' :: cs else c :: replaceFirstColonDash cs

def normalizeExif (v : String) : String :=
  String.mk (replaceFirstColonDash (replaceFirstColonDash (jsTrim v.data)))

/-- The string value `getExifData` returns. -/
def exifValue (env : Env) (file : String) : String :=
  if env.supportsExif then
    if imageRegexTest file then
      match env.exifField file with
      | .ok (some v) => normalizeExif v
      | _ => ""
    else ""
  else ""

/-- The `errors` increment performed inside `getExifData` (the `catch` branch). -/
def exifErrBump (env : Env) (file : String) : Nat :=
  if env.supportsExif then
    if imageRegexTest file then
      match env.exifField file with
      | .error _ => 1
      | .ok _ => 0
    else 0
  else 0

/-- The exiftool invocations `getExifData` performs. -/
def exifTrace (env : Env) (file : String) : List Effect :=
  if env.supportsExif then
    if imageRegexTest file then [Effect.exifCall file] else []
  else []

/-- The function `getExifData` (timestamp.js lines 88–111 / part_001 lines 98–121). -/
def getExifData (env : Env) (st : RunState) (file : String) :
    String × RunState × List Effect :=
  (exifValue env file,
   { st with errors := st.errors + exifErrBump env file },
   exifTrace env file)

/-- Models `.toString().trim().split('.')[0]` applied to the raw stat output. -/
def statProcess (raw : String) : String :=
  String.mk ((jsTrim raw.data).takeWhile (fun c => c ≠ '.'))

/-- The string value `getModifiedTime` returns (`''` on stat failure). -/
def mTimeValue (env : Env) (file : String) : String :=
  match env.statRaw file with
  | some raw => statProcess raw
  | none => ""

/-- The `errors` increment performed inside `getModifiedTime`. -/
def statErrBump (env : Env) (file : String) : Nat :=
  match env.statRaw file with
  | some _ => 0
  | none => 1

/-- The function `getModifiedTime` (timestamp.js lines 117–130). -/
def getModifiedTime (env : Env) (st : RunState) (file : String) :
    String × RunState × List Effect :=
  (mTimeValue env file,
   { st with errors := st.errors + statErrBump env file },
   [Effect.statCall file])

/-- The function `touchFile`: returns 0 on success, 1 (and `errors += 1`) on failure. -/
def touchFile (env : Env) (st : RunState) (stamp file : String) :
    Nat × RunState × List Effect :=
  if env.touchOk stamp file then (0, st, [Effect.touchCall stamp file])
  else (1, { st with errors := st.errors + 1 }, [Effect.touchCall stamp file])

/-- Wraps `parseFileName` with its internal `errors += 1` on match failure (the
result is empty exactly when the regex did not match). -/
def parseFileNameRun (st : RunState) (fileName : String) : String × RunState :=
  let r := parseFileName fileName
  if r = "" then (r, { st with errors := st.errors + 1 }) else (r, st)

/-- The outcome classification of one processed item (spec §4.4). -/
inductive Outcome : Type
  | changed
  | skipped
  | parseError
  | writeError
deriving DecidableEq

/-- Result of processing one item: final state, outcome, external calls. -/
structure PFResult where
  st : RunState
  outcome : Outcome
  trace : List Effect
deriving DecidableEq

/-- The function `processFile` (timestamp.js lines 176–235 / part_001 lines 186–249,
which additionally pushes changed names onto `summaryObj.files`; timestamp.js
is the same function with `skipEXIF = false` and the summary push ignored).
Progress printing is presentational and omitted. -/
def processFile (env : Env) (st : RunState) (fileName dirPath : String) :
    PFResult :=
  let full := dirPath ++ fileName
  let exifDateTime := if env.skipEXIF then "" else exifValue env full
  let st1 :=
    if env.skipEXIF then st
    else { st with errors := st.errors + exifErrBump env full }
  let tr1 := if env.skipEXIF then [] else exifTrace env full
  let mTime := mTimeValue env full
  let st2 := { st1 with errors := st1.errors + statErrBump env full }
  let tr12 := tr1 ++ [Effect.statCall full]
  if exifDateTime ≠ "" then
    if exifDateTime ≠ mTime then
      let tc := touchFile env st2 exifDateTime full
      if tc.1 > 0 then
        ⟨{ tc.2.1 with exitCode := 1 }, .writeError, tr12 ++ tc.2.2⟩
      else
        let stc := { tc.2.1 with processed := tc.2.1.processed + 1, summaryFiles := tc.2.1.summaryFiles ++ [fileName] }
        ⟨stc, .changed, tr12 ++ tc.2.2⟩
    else ⟨{ st2 with skipped := st2.skipped + 1 }, .skipped, tr12⟩
  else
    let pr := parseFileNameRun st2 fileName
    if pr.1 ≠ "" then
      if pr.1 ≠ mTime then
        let tc := touchFile env pr.2 pr.1 full
        if tc.1 > 0 then
          ⟨{ tc.2.1 with exitCode := 1 }, .writeError, tr12 ++ tc.2.2⟩
        else
          let stc := { tc.2.1 with processed := tc.2.1.processed + 1, summaryFiles := tc.2.1.summaryFiles ++ [fileName] }
          ⟨stc, .changed, tr12 ++ tc.2.2⟩
      else ⟨{ pr.2 with skipped := pr.2.skipped + 1 }, .skipped, tr12⟩
    else
      let ste := { pr.2 with skipped := pr.2.skipped + 1, errors := pr.2.errors + 1 }
      ⟨ste, .parseError, tr12⟩

/-- The candidate timestamp `processFile` resolves for an item
(EXIF first, filename fallback), `none` when neither yields one. -/
def resolveCandidate (env : Env) (fileName dirPath : String) : Option String :=
  let exif := if env.skipEXIF then "" else exifValue env (dirPath ++ fileName)
  if exif ≠ "" then some exif
  else if parseFileName fileName ≠ "" then some (parseFileName fileName)
  else none

/-- The `files.forEach(...)` batch loop: thread the state through
`processFile`, collecting traces and outcomes. -/
def runBatch (env : Env) (dirPath : String) (files : List String)
    (st : RunState) : RunState × List Effect × List Outcome :=
  match files with
  | [] => (st, [], [])
  | f :: fs =>
    let r := processFile env st f dirPath
    let rest := runBatch env dirPath fs r.st
    (rest.1, r.trace ++ rest.2.1, r.outcome :: rest.2.2)

/-- The summary JSON object (part_001 `summaryObj`). -/
structure Summary where
  date : String
  files : List String
deriving DecidableEq

/-- The summary artifact the run persists: written once after the batch,
only when `processed > 0 && !skipSummary`, and only if `writeFileSync`
succeeds (part_001 lines 354–366). -/
def persistedSummary (env : Env) (final : RunState) : Option Summary :=
  if 0 < final.processed ∧ env.skipSummary = false ∧ env.summaryWriteOk = true
  then some ⟨env.currentDate, final.summaryFiles⟩
  else none

/-- Outcome of one item — independent of the incoming counters. -/
def outcomeOf (env : Env) (fileName dirPath : String) : Outcome :=
  (processFile env initState fileName dirPath).outcome

/-- The names of the items a run changes, in processing order. -/
def changedNames (env : Env) (dirPath : String) (files : List String) :
    List String :=
  files.filter (fun f =>
    match outcomeOf env f dirPath with
    | .changed => true
    | _ => false)

/-- Does a trace contain a `touch` invocation? -/
def hasTouch (tr : List Effect) : Bool :=
  tr.any (fun e =>
    match e with
    | .touchCall _ _ => true
    | _ => false)

/-- Write–read coherence of the external filesystem capability: each
successful `touch` makes a later `stat` of that path return the applied
timestamp string.  Applied to a trace, this yields the environment a second
run observes when nothing else changes the world. -/
def envAfterTouch (env : Env) (tr : List Effect) : Env :=
  tr.foldl (fun e eff =>
    match eff with
    | .touchCall stamp file =>
      if e.touchOk stamp file then
        { e with statRaw := fun p => if p = file then some stamp else e.statRaw p }
      else e
    | _ => e) env

/-! ## Concrete test environments (used by counterexamples and witnesses) -/

/-- A run without exiftool whose stat result equals the parsed candidate of
`2014-12-25 11-48-02.jpg`. -/
def envSkipDemo : Env :=
  { supportsExif := false, skipEXIF := false, skipSummary := false,
    summaryWriteOk := true, currentDate := "2022-03-04T05:06:07.000Z",
    exifField := fun _ => .ok none,
    statRaw := fun _ => some "2014-12-25 11:48:02",
    touchOk := fun _ _ => true }

/-- A run with exiftool available (fixed `DateTimeOriginal`) whose stat
capability fails on every path. -/
def envStatFailDemo : Env :=
  { supportsExif := true, skipEXIF := false, skipSummary := false,
    summaryWriteOk := true, currentDate := "2022-03-04T05:06:07.000Z",
    exifField := fun _ => .ok (some "2019:07:04 10:20:30"),
    statRaw := fun _ => none,
    touchOk := fun _ _ => true }

/-- A run without exiftool whose stat capability works; used for
parse-error scenarios. -/
def envParseDemo : Env :=
  { supportsExif := false, skipEXIF := false, skipSummary := false,
    summaryWriteOk := true, currentDate := "2022-03-04T05:06:07.000Z",
    exifField := fun _ => .ok none,
    statRaw := fun _ => some "2020-01-01 00:00:00",
    touchOk := fun _ _ => true }

/-! ## Helper lemmas: evaluating the matcher along a successful greedy path -/

@[simp] theorem orElseO_some {α : Type} (x : α) (b : Unit → Option α) :
    orElseO (some x) b = some x := rfl

@[simp] theorem orElseO_none {α : Type} (b : Unit → Option α) :
    orElseO none b = b () := rfl

theorem digit_toNat {c : Char} (h : c.isDigit = true) :
    48 ≤ c.toNat ∧ c.toNat ≤ 57 := by
  simp [Char.isDigit] at h
  exact ⟨h.1, h.2⟩

theorem isJsWs_digit {c : Char} (h : c.isDigit = true) : isJsWs c = false := by
  obtain ⟨h1, h2⟩ := digit_toNat h
  simp [isJsWs]
  omega

theorem isDotChar_digit {c : Char} (h : c.isDigit = true) :
    isDotChar c = true := by
  obtain ⟨h1, h2⟩ := digit_toNat h
  simp [isDotChar, isLineTerm]
  omega

/-- First alternative of an alternation succeeds: the rest is not tried. -/
theorem altD_head {α : Type} {f : List Char → Option (List Char × List Char)}
    {opts : List (List Char → Option (List Char × List Char))}
    {s : List Char} {k : List Char → List Char → Option α}
    {p : List Char × List Char} {r : α}
    (hf : f s = some p) (hk : k p.1 p.2 = some r) :
    altD (f :: opts) s k = some r := by
  simp [altD, hf, hk]

/-- Greedy `.?` consumes an available matching character. -/
theorem optDot_take {α : Type} {c : Char} {cs : List Char}
    {k : List Char → List Char → Option α} {r : α}
    (hc : isDotChar c = true) (hk : k [c] cs = some r) :
    optDot (c :: cs) k = some r := by
  simp [optDot, hc, hk]

/-- Greedy `[^-\d]?` consumes an available matching character. -/
theorem optNotDashDigit_take {α : Type} {c : Char} {cs : List Char}
    {k : List Char → List Char → Option α} {r : α}
    (hc : (!c.isDigit && c ≠ '-') = true) (hk : k [c] cs = some r) :
    optNotDashDigit (c :: cs) k = some r := by
  simp only [optNotDashDigit, hc, if_true, hk, orElseO_some]

/-- If the continuation succeeds on the full greedy consumption, `[^\d]*`
commits to it. -/
theorem starAux_full {α : Type} {rest : List Char} {k : List Char → Option α}
    {r : α} (run : List Char) (hk : k rest = some r) :
    starAux run rest k = some r := by
  induction run with
  | nil => simpa [starAux] using hk
  | cons c run ih => simp [starAux, ih]

theorem starNonDigit_full {α : Type} {s run rest : List Char}
    {k : List Char → Option α} {r : α}
    (hsplit : nonDigitTake s = (run, rest)) (hk : k rest = some r) :
    starNonDigit s k = some r := by
  simp [starNonDigit, hsplit, starAux_full run hk]

/-- A match at the current position makes `exec` return it. -/
theorem execRegex_head {α : Type} {m : List Char → Option α} {c : Char}
    {cs : List Char} {r : α} (h : m (c :: cs) = some r) :
    execRegex m (c :: cs) = some r := by
  simp [execRegex, h]

theorem jsSlice4_append {l e : List Char} (h : e.length = 4) :
    jsSlice4 (l ++ e) = l := by
  simp [jsSlice4, List.length_append, h]

/-- Both `timeStampRegex` variants match a canonical
`YYYY-MM-DD HH:mm:ss` at its start, splitting it into the expected groups:
the greedy first choice succeeds at every quantifier. -/
theorem matchTS_canon
    (y1 y2 y3 y4 m1 m2 d1 d2 h1 h2 n1 n2 s1 s2 : Char)
    (hy1 : y1.isDigit = true) (hy2 : y2.isDigit = true)
    (hy3 : y3.isDigit = true) (hy4 : y4.isDigit = true)
    (hm1 : m1.isDigit = true) (hm2 : m2.isDigit = true)
    (hd1 : d1.isDigit = true) (hd2 : d2.isDigit = true)
    (hh1 : h1.isDigit = true) (hh2 : h2.isDigit = true)
    (hn1 : n1.isDigit = true) (hn2 : n2.isDigit = true)
    (hs1 : s1.isDigit = true) (hs2 : s2.isDigit = true) :
    matchTSAt [y1,y2,y3,y4,'-',m1,m2,'-',d1,d2,' ',h1,h2,':',n1,n2,':',s1,s2] =
      some ([y1,y2,y3,y4,'-',m1,m2,'-',d1,d2], [h1,h2,':',n1,n2,':',s1,s2]) := by
  have cdash : isDotChar '-' = true := by decide
  have ccolon : isDotChar ':' = true := by decide
  have h4 : digits4 [y1,y2,y3,y4,'-',m1,m2,'-',d1,d2,' ',h1,h2,':',n1,n2,':',s1,s2] =
      some ([y1,y2,y3,y4], ['-',m1,m2,'-',d1,d2,' ',h1,h2,':',n1,n2,':',s1,s2]) := by
    simp [digits4, digits3, digits2, seqD, digit1, hy1, hy2, hy3, hy4]
  have hmm : digits2 (m1 :: m2 :: '-' :: d1 :: d2 :: ' ' :: h1 :: h2 :: ':' :: n1 :: n2 :: ':' :: s1 :: s2 :: []) =
      some ([m1, m2], ['-',d1,d2,' ',h1,h2,':',n1,n2,':',s1,s2]) := by
    simp [digits2, seqD, digit1, hm1, hm2]
  have hdd : digits2 (d1 :: d2 :: ' ' :: h1 :: h2 :: ':' :: n1 :: n2 :: ':' :: s1 :: s2 :: []) =
      some ([d1, d2], [' ',h1,h2,':',n1,n2,':',s1,s2]) := by
    simp [digits2, seqD, digit1, hd1, hd2]
  have hsp : nonDigitTake (' ' :: h1 :: h2 :: ':' :: n1 :: n2 :: ':' :: s1 :: s2 :: []) =
      ([' '], [h1,h2,':',n1,n2,':',s1,s2]) := by
    simp [nonDigitTake, hh1]
  have hhh : digits2 (h1 :: h2 :: ':' :: n1 :: n2 :: ':' :: s1 :: s2 :: []) =
      some ([h1, h2], [':',n1,n2,':',s1,s2]) := by
    simp [digits2, seqD, digit1, hh1, hh2]
  have hnn : digits2 (n1 :: n2 :: ':' :: s1 :: s2 :: []) =
      some ([n1, n2], [':',s1,s2]) := by
    simp [digits2, seqD, digit1, hn1, hn2]
  have hss : digits2 (s1 :: s2 :: []) = some ([s1, s2], []) := by
    simp [digits2, seqD, digit1, hs1, hs2]
  exact altD_head h4 (optDot_take cdash (altD_head hmm (optDot_take cdash
    (altD_head hdd (starNonDigit_full hsp (altD_head hhh (optDot_take ccolon
    (altD_head hnn (optDot_take ccolon (altD_head hss rfl))))))))))

theorem matchTS2_canon
    (y1 y2 y3 y4 m1 m2 d1 d2 h1 h2 n1 n2 s1 s2 : Char)
    (hy1 : y1.isDigit = true) (hy2 : y2.isDigit = true)
    (hy3 : y3.isDigit = true) (hy4 : y4.isDigit = true)
    (hm1 : m1.isDigit = true) (hm2 : m2.isDigit = true)
    (hd1 : d1.isDigit = true) (hd2 : d2.isDigit = true)
    (hh1 : h1.isDigit = true) (hh2 : h2.isDigit = true)
    (hn1 : n1.isDigit = true) (hn2 : n2.isDigit = true)
    (hs1 : s1.isDigit = true) (hs2 : s2.isDigit = true) :
    matchTS2At [y1,y2,y3,y4,'-',m1,m2,'-',d1,d2,' ',h1,h2,':',n1,n2,':',s1,s2] =
      some ([y1,y2,y3,y4,'-',m1,m2,'-',d1,d2], [h1,h2,':',n1,n2,':',s1,s2]) := by
  have cdash : isDotChar '-' = true := by decide
  have ccolon : isDotChar ':' = true := by decide
  have ccolon2 : (!(':').isDigit && ':' ≠ '-') = true := by decide
  have h4 : digits4 [y1,y2,y3,y4,'-',m1,m2,'-',d1,d2,' ',h1,h2,':',n1,n2,':',s1,s2] =
      some ([y1,y2,y3,y4], ['-',m1,m2,'-',d1,d2,' ',h1,h2,':',n1,n2,':',s1,s2]) := by
    simp [digits4, digits3, digits2, seqD, digit1, hy1, hy2, hy3, hy4]
  have hmm : digits2 (m1 :: m2 :: '-' :: d1 :: d2 :: ' ' :: h1 :: h2 :: ':' :: n1 :: n2 :: ':' :: s1 :: s2 :: []) =
      some ([m1, m2], ['-',d1,d2,' ',h1,h2,':',n1,n2,':',s1,s2]) := by
    simp [digits2, seqD, digit1, hm1, hm2]
  have hdd : digits2 (d1 :: d2 :: ' ' :: h1 :: h2 :: ':' :: n1 :: n2 :: ':' :: s1 :: s2 :: []) =
      some ([d1, d2], [' ',h1,h2,':',n1,n2,':',s1,s2]) := by
    simp [digits2, seqD, digit1, hd1, hd2]
  have hsp : nonDigitTake (' ' :: h1 :: h2 :: ':' :: n1 :: n2 :: ':' :: s1 :: s2 :: []) =
      ([' '], [h1,h2,':',n1,n2,':',s1,s2]) := by
    simp [nonDigitTake, hh1]
  have hhh : digits2 (h1 :: h2 :: ':' :: n1 :: n2 :: ':' :: s1 :: s2 :: []) =
      some ([h1, h2], [':',n1,n2,':',s1,s2]) := by
    simp [digits2, seqD, digit1, hh1, hh2]
  have hnn : digits2 (n1 :: n2 :: ':' :: s1 :: s2 :: []) =
      some ([n1, n2], [':',s1,s2]) := by
    simp [digits2, seqD, digit1, hn1, hn2]
  have hss : digits2 (s1 :: s2 :: []) = some ([s1, s2], []) := by
    simp [digits2, seqD, digit1, hs1, hs2]
  exact altD_head h4 (optDot_take cdash (altD_head hmm (optDot_take cdash
    (altD_head hdd (starNonDigit_full hsp (altD_head hhh (optDot_take ccolon
    (altD_head hnn (optNotDashDigit_take ccolon2 (altD_head hss rfl))))))))))

/-- A canonical date group normalizes to itself. -/
theorem dateFromGroup_canon
    (y1 y2 y3 y4 m1 m2 d1 d2 : Char)
    (hy1 : y1.isDigit = true) (hy2 : y2.isDigit = true)
    (hy3 : y3.isDigit = true) (hy4 : y4.isDigit = true)
    (hm1 : m1.isDigit = true) (hm2 : m2.isDigit = true)
    (hd1 : d1.isDigit = true) (hd2 : d2.isDigit = true) :
    dateFromGroup [y1,y2,y3,y4,'-',m1,m2,'-',d1,d2] =
      [y1,y2,y3,y4,'-',m1,m2,'-',d1,d2] := by
  have cw : isJsWs '-' = false := by decide
  have cd : ('-').isDigit = false := by decide
  simp [dateFromGroup, jsTrim, trimRight, List.dropWhile, cw, cd,
        isJsWs_digit hy1, isJsWs_digit hd2,
        hy1, hy2, hy3, hy4, hm1, hm2, hd1, hd2]

/-- A canonical time group normalizes to itself (two counted separators,
length already 8). -/
theorem timeFromGroup_canon
    (h1 h2 n1 n2 s1 s2 : Char)
    (hh1 : h1.isDigit = true) (hh2 : h2.isDigit = true)
    (hn1 : n1.isDigit = true) (hn2 : n2.isDigit = true)
    (hs1 : s1.isDigit = true) (hs2 : s2.isDigit = true) :
    timeFromGroup [h1,h2,':',n1,n2,':',s1,s2] = [h1,h2,':',n1,n2,':',s1,s2] := by
  have cw : isJsWs ':' = false := by decide
  have cd : (':').isDigit = false := by decide
  simp [timeFromGroup, jsTrim, trimRight, List.dropWhile, sepCount, sepCountAux,
        cw, cd, isJsWs_digit hh1, isJsWs_digit hs2,
        hh1, hh2, hn1, hn2, hs1, hs2]

/-! ## Helper lemmas: all-digit groups and separator counting -/

theorem dropWhile_ws_all_digits {l : List Char} (h : l.all Char.isDigit = true) :
    l.dropWhile isJsWs = l := by
  cases l with
  | nil => rfl
  | cons c cs =>
    simp only [List.all_cons, Bool.and_eq_true] at h
    simp [List.dropWhile_cons, isJsWs_digit h.1]

theorem trimRight_all_digits {l : List Char} (h : l.all Char.isDigit = true) :
    trimRight l = l := by
  induction l with
  | nil => rfl
  | cons c cs ih =>
    simp only [List.all_cons, Bool.and_eq_true] at h
    rw [trimRight, ih h.2]
    cases cs with
    | nil => simp [isJsWs_digit h.1]
    | cons d ds => rfl

theorem jsTrim_all_digits {l : List Char} (h : l.all Char.isDigit = true) :
    jsTrim l = l := by
  rw [jsTrim, dropWhile_ws_all_digits h, trimRight_all_digits h]

theorem digitMap_id {l : List Char} (h : l.all Char.isDigit = true) :
    l.map (fun c => if c.isDigit then c else '-') = l := by
  induction l with
  | nil => rfl
  | cons c cs ih =>
    simp only [List.all_cons, Bool.and_eq_true] at h
    simp [h.1, ih h.2]

/-- The `replace(/[^\d]/g, '-')` of the date group is the identity when the
group is a separator-free digit run: no dashes are inserted. -/
theorem dateFromGroup_all_digits {l : List Char} (h : l.all Char.isDigit = true) :
    dateFromGroup l = l := by
  rw [dateFromGroup, jsTrim_all_digits h, digitMap_id h]

theorem sepCountAux_no_sep {l : List Char}
    (h : (l.filter (fun c => !c.isDigit)).length = 0) (b : Bool) :
    sepCountAux l b = 0 := by
  induction l generalizing b with
  | nil => cases b <;> rfl
  | cons c cs ih =>
    simp only [List.filter_cons] at h
    by_cases hc : c.isDigit
    · simp only [hc, Bool.not_true, Bool.false_eq_true, if_false] at h
      cases b
      · simp [sepCountAux, hc, ih h]
      · simp [sepCountAux, ih h]
    · simp only [Bool.not_eq_true] at hc
      simp [hc, List.length_cons] at h

theorem sepCount_one_sep {l : List Char}
    (h : (l.filter (fun c => !c.isDigit)).length = 1) :
    sepCount l = 1 := by
  rw [sepCount]
  induction l with
  | nil => simp at h
  | cons c cs ih =>
    simp only [List.filter_cons] at h
    by_cases hc : c.isDigit
    · simp only [hc, Bool.not_true, Bool.false_eq_true, if_false] at h
      simpa [sepCountAux, hc] using ih h
    · simp only [Bool.not_eq_true] at hc
      simp only [hc, Bool.not_false, if_true, List.length_cons,
        Nat.add_left_eq_self] at h
      rw [show sepCountAux (c :: cs) false = 1 + sepCountAux cs true from by
        simp [sepCountAux, hc]]
      cases cs with
      | nil => rfl
      | cons d ds =>
        simp only [List.filter_cons] at h
        by_cases hd : d.isDigit
        · simp only [hd, Bool.not_true, Bool.false_eq_true, if_false] at h
          simp [sepCountAux, sepCountAux_no_sep h]
        · simp only [Bool.not_eq_true] at hd
          simp [hd, List.length_cons] at h

theorem hasTouch_append (a b : List Effect) :
    hasTouch (a ++ b) = (hasTouch a || hasTouch b) := by
  simp [hasTouch, List.any_append]

theorem hasTouch_exifTrace (env : Env) (file : String) :
    hasTouch (exifTrace env file) = false := by
  unfold exifTrace
  split_ifs <;> simp [hasTouch]

theorem hasTouch_pre (env : Env) (file : String) :
    hasTouch ((if env.skipEXIF then [] else exifTrace env file) ++
      [Effect.statCall file]) = false := by
  rw [hasTouch_append]
  split_ifs with h
  · simp [hasTouch]
  · rw [hasTouch_exifTrace]
    simp [hasTouch]

theorem parseFileNameRun_fst (st : RunState) (f : String) :
    (parseFileNameRun st f).1 = parseFileName f := by
  by_cases h : parseFileName f = "" <;> simp [parseFileNameRun, h]

theorem touchFile_fst (env : Env) (st : RunState) (stamp file : String) :
    (touchFile env st stamp file).1 =
      (if env.touchOk stamp file then 0 else 1) := by
  unfold touchFile
  split <;> rfl

theorem touchFile_trace (env : Env) (st : RunState) (stamp file : String) :
    (touchFile env st stamp file).2.2 = [Effect.touchCall stamp file] := by
  unfold touchFile
  split <;> rfl

theorem processFile_outcome_indep (env : Env) (st st2 : RunState)
    (f dir : String) :
    (processFile env st f dir).outcome = (processFile env st2 f dir).outcome ∧
    (processFile env st f dir).trace = (processFile env st2 f dir).trace := by
  unfold processFile
  by_cases h1 : (if env.skipEXIF then "" else exifValue env (dir ++ f)) ≠ ""
  · by_cases h2 : (if env.skipEXIF then "" else exifValue env (dir ++ f)) ≠ mTimeValue env (dir ++ f)
    · by_cases h3 : env.touchOk (if env.skipEXIF then "" else exifValue env (dir ++ f)) (dir ++ f)
      · simp [h1, h2, h3, touchFile_fst, touchFile_trace]
      · simp [h1, h2, h3, touchFile_fst, touchFile_trace]
    · simp [h1, h2]
  · by_cases h4 : parseFileName f ≠ ""
    · by_cases h5 : parseFileName f ≠ mTimeValue env (dir ++ f)
      · by_cases h6 : env.touchOk (parseFileName f) (dir ++ f)
        · simp [h1, h4, h5, h6, parseFileNameRun_fst, touchFile_fst, touchFile_trace]
        · simp [h1, h4, h5, h6, parseFileNameRun_fst, touchFile_fst, touchFile_trace]
      · simp [h1, h4, h5, parseFileNameRun_fst]
    · simp [h1, h4, parseFileNameRun_fst]



theorem parseFileNameRun_skipped (st : RunState) (f : String) :
    (parseFileNameRun st f).2.skipped = st.skipped := by
  by_cases h : parseFileName f = "" <;> simp [parseFileNameRun, h]

theorem parseFileNameRun_processed (st : RunState) (f : String) :
    (parseFileNameRun st f).2.processed = st.processed := by
  by_cases h : parseFileName f = "" <;> simp [parseFileNameRun, h]

theorem parseFileNameRun_exitCode (st : RunState) (f : String) :
    (parseFileNameRun st f).2.exitCode = st.exitCode := by
  by_cases h : parseFileName f = "" <;> simp [parseFileNameRun, h]

theorem parseFileNameRun_summaryFiles (st : RunState) (f : String) :
    (parseFileNameRun st f).2.summaryFiles = st.summaryFiles := by
  by_cases h : parseFileName f = "" <;> simp [parseFileNameRun, h]

theorem processFile_skip_core (env : Env) (st : RunState) (f dir c : String)
    (hc : resolveCandidate env f dir = some c)
    (hm : mTimeValue env (dir ++ f) = c) :
    (processFile env st f dir).outcome = .skipped ∧
    hasTouch (processFile env st f dir).trace = false ∧
    (processFile env st f dir).st.skipped = st.skipped + 1 := by
  unfold resolveCandidate at hc
  unfold processFile
  by_cases h1 : (if env.skipEXIF then "" else exifValue env (dir ++ f)) ≠ ""
  · rw [if_pos h1] at hc
    have hec : (if env.skipEXIF then "" else exifValue env (dir ++ f)) = c :=
      Option.some.inj hc
    have h2 : ¬((if env.skipEXIF then "" else exifValue env (dir ++ f)) ≠
        mTimeValue env (dir ++ f)) := by
      rw [hec, hm]
      simp
    simp [h1, h2, hasTouch_pre, apply_ite RunState.skipped]
  · rw [if_neg h1] at hc
    by_cases h4 : parseFileName f ≠ ""
    · rw [if_pos h4] at hc
      have hpc : parseFileName f = c := Option.some.inj hc
      have h5 : ¬(parseFileName f ≠ mTimeValue env (dir ++ f)) := by
        rw [hpc, hm]
        simp
      simp [h1, h4, h5, parseFileNameRun_fst, parseFileNameRun_skipped,
        hasTouch_pre, apply_ite RunState.skipped]
    · rw [if_neg h4] at hc
      exact absurd hc (by simp)

theorem processFile_changed_inv (env : Env) (st : RunState) (f dir : String)
    (h : (processFile env st f dir).outcome = .changed) :
    ∃ c, resolveCandidate env f dir = some c ∧
      env.touchOk c (dir ++ f) = true ∧
      (processFile env st f dir).trace =
        ((if env.skipEXIF then [] else exifTrace env (dir ++ f)) ++
          [Effect.statCall (dir ++ f)]) ++ [Effect.touchCall c (dir ++ f)] := by
  unfold processFile at h ⊢
  unfold resolveCandidate
  by_cases h1 : (if env.skipEXIF then "" else exifValue env (dir ++ f)) ≠ ""
  · by_cases h2 : (if env.skipEXIF then "" else exifValue env (dir ++ f)) ≠ mTimeValue env (dir ++ f)
    · by_cases h3 : env.touchOk (if env.skipEXIF then "" else exifValue env (dir ++ f)) (dir ++ f)
      · refine ⟨(if env.skipEXIF then "" else exifValue env (dir ++ f)), ?_, h3, ?_⟩
        · simp [h1]
        · simp [h1, h2, h3, touchFile_fst, touchFile_trace]
      · simp [h1, h2, h3, touchFile_fst] at h
    · simp [h1, h2] at h
  · by_cases h4 : parseFileName f ≠ ""
    · by_cases h5 : parseFileName f ≠ mTimeValue env (dir ++ f)
      · by_cases h6 : env.touchOk (parseFileName f) (dir ++ f)
        · refine ⟨parseFileName f, ?_, h6, ?_⟩
          · simp [h1, h4]
          · simp [h1, h4, h5, h6, parseFileNameRun_fst, touchFile_fst, touchFile_trace]
        · simp [h1, h4, h5, h6, parseFileNameRun_fst, touchFile_fst] at h
      · simp [h1, h4, h5, parseFileNameRun_fst] at h
    · simp [h1, h4, parseFileNameRun_fst] at h

theorem processFile_skipped_inv (env : Env) (st : RunState) (f dir : String)
    (h : (processFile env st f dir).outcome = .skipped) :
    hasTouch (processFile env st f dir).trace = false ∧
    ∃ c, resolveCandidate env f dir = some c ∧ mTimeValue env (dir ++ f) = c := by
  unfold processFile at h ⊢
  unfold resolveCandidate
  by_cases h1 : (if env.skipEXIF then "" else exifValue env (dir ++ f)) ≠ ""
  · by_cases h2 : (if env.skipEXIF then "" else exifValue env (dir ++ f)) ≠ mTimeValue env (dir ++ f)
    · by_cases h3 : env.touchOk (if env.skipEXIF then "" else exifValue env (dir ++ f)) (dir ++ f)
      · simp [h1, h2, h3, touchFile_fst] at h
      · simp [h1, h2, h3, touchFile_fst] at h
    · refine ⟨by simp [h1, h2, hasTouch_pre], ?_⟩
      rw [not_not] at h2
      exact ⟨_, by simp [h1], h2.symm⟩
  · by_cases h4 : parseFileName f ≠ ""
    · by_cases h5 : parseFileName f ≠ mTimeValue env (dir ++ f)
      · by_cases h6 : env.touchOk (parseFileName f) (dir ++ f)
        · simp [h1, h4, h5, h6, parseFileNameRun_fst, touchFile_fst] at h
        · simp [h1, h4, h5, h6, parseFileNameRun_fst, touchFile_fst] at h
      · refine ⟨by simp [h1, h4, h5, parseFileNameRun_fst, hasTouch_pre], ?_⟩
        rw [not_not] at h5
        exact ⟨_, by simp [h1, h4], h5.symm⟩
    · simp [h1, h4, parseFileNameRun_fst] at h



theorem envAfterTouch_append (env : Env) (a b : List Effect) :
    envAfterTouch env (a ++ b) = envAfterTouch (envAfterTouch env a) b := by
  simp [envAfterTouch, List.foldl_append]

theorem envAfterTouch_no_touch (env : Env) (tr : List Effect)
    (h : hasTouch tr = false) : envAfterTouch env tr = env := by
  induction tr generalizing env with
  | nil => rfl
  | cons e es ih =>
    simp only [hasTouch, List.any_cons, Bool.or_eq_false_iff] at h
    cases e with
    | exifCall file => exact ih env (by simpa [hasTouch] using h.2)
    | statCall file => exact ih env (by simpa [hasTouch] using h.2)
    | touchCall stamp file => simp at h

theorem envAfterTouch_touch_ok (env : Env) (stamp file : String)
    (h : env.touchOk stamp file = true) :
    envAfterTouch env [Effect.touchCall stamp file] =
      { env with statRaw := fun p => if p = file then some stamp else env.statRaw p } := by
  simp [envAfterTouch, h]

theorem resolveCandidate_statUpdate (env : Env) (g : String → Option String)
    (f dir : String) :
    resolveCandidate { env with statRaw := g } f dir =
      resolveCandidate env f dir := rfl

/-- C5: if the resolved candidate timestamp is string-exactly equal to the
item's current modification timestamp, `processFile` performs no touch call
and counts the item as Skipped; consequently, reconciling the same item a
second time — against the environment obtained by write–read coherence from
the first run's trace, with candidates stable under the stat reader's
truncation — yields Skipped with no touch, whenever the first run ended
Changed or Skipped. -/
theorem C5_skipped_no_write_and_idempotent (env : Env) (st st2 : RunState) (f dir c : String) :
    (resolveCandidate env f dir = some c → mTimeValue env (dir ++ f) = c →
      (processFile env st f dir).outcome = .skipped ∧
      hasTouch (processFile env st f dir).trace = false ∧
      (processFile env st f dir).st.skipped = st.skipped + 1) ∧
    (((processFile env st f dir).outcome = .changed ∨
        (processFile env st f dir).outcome = .skipped) →
      (∀ c2, resolveCandidate env f dir = some c2 → statProcess c2 = c2) →
      (processFile (envAfterTouch env (processFile env st f dir).trace) st2 f dir).outcome = .skipped ∧
      hasTouch (processFile (envAfterTouch env (processFile env st f dir).trace) st2 f dir).trace = false) := by
  constructor
  · intro hc hm
    exact processFile_skip_core env st f dir c hc hm
  · intro houtcome hstable
    rcases houtcome with hch | hsk
    · obtain ⟨c2, hc2, hok, htr⟩ := processFile_changed_inv env st f dir hch
      have hstab := hstable c2 hc2
      have henv : envAfterTouch env (processFile env st f dir).trace =
          { env with statRaw := fun p => if p = dir ++ f then some c2 else env.statRaw p } := by
        rw [htr, envAfterTouch_append,
          envAfterTouch_no_touch env _ (hasTouch_pre env (dir ++ f)),
          envAfterTouch_touch_ok env c2 (dir ++ f) hok]
      rw [henv]
      have hrc : resolveCandidate
          { env with statRaw := fun p => if p = dir ++ f then some c2 else env.statRaw p } f dir =
          some c2 := by
        rw [resolveCandidate_statUpdate]
        exact hc2
      have hmt : mTimeValue
          { env with statRaw := fun p => if p = dir ++ f then some c2 else env.statRaw p }
          (dir ++ f) = c2 := by
        simp [mTimeValue]
        exact hstab
      have h := processFile_skip_core _ st2 f dir c2 hrc hmt
      exact ⟨h.1, h.2.1⟩
    · have h2 := processFile_skipped_inv env st f dir hsk
      rw [envAfterTouch_no_touch env _ h2.1]
      obtain ⟨c2, hc2, hm2⟩ := h2.2
      have h := processFile_skip_core env st2 f dir c2 hc2 hm2
      exact ⟨h.1, h.2.1⟩



theorem touchFile_st_skipped (env : Env) (st : RunState) (stamp file : String) :
    (touchFile env st stamp file).2.1.skipped = st.skipped := by
  unfold touchFile; split <;> rfl

theorem touchFile_st_processed (env : Env) (st : RunState) (stamp file : String) :
    (touchFile env st stamp file).2.1.processed = st.processed := by
  unfold touchFile; split <;> rfl

theorem touchFile_st_summaryFiles (env : Env) (st : RunState) (stamp file : String) :
    (touchFile env st stamp file).2.1.summaryFiles = st.summaryFiles := by
  unfold touchFile; split <;> rfl

theorem touchFile_st_exitCode (env : Env) (st : RunState) (stamp file : String) :
    (touchFile env st stamp file).2.1.exitCode = st.exitCode := by
  unfold touchFile; split <;> rfl

theorem resolveCandidate_ne_empty (env : Env) (f dir c : String)
    (hc : resolveCandidate env f dir = some c) : c ≠ "" := by
  unfold resolveCandidate at hc
  by_cases h1 : (if env.skipEXIF then "" else exifValue env (dir ++ f)) ≠ ""
  · rw [if_pos h1] at hc
    exact (Option.some.inj hc) ▸ h1
  · rw [if_neg h1] at hc
    by_cases h4 : parseFileName f ≠ ""
    · rw [if_pos h4] at hc
      exact (Option.some.inj hc) ▸ h4
    · rw [if_neg h4] at hc
      simp at hc

theorem processFile_touch_on_ne (env : Env) (st : RunState) (f dir c : String)
    (hc : resolveCandidate env f dir = some c)
    (hne : c ≠ mTimeValue env (dir ++ f)) :
    hasTouch (processFile env st f dir).trace = true := by
  unfold resolveCandidate at hc
  unfold processFile
  by_cases h1 : (if env.skipEXIF then "" else exifValue env (dir ++ f)) ≠ ""
  · rw [if_pos h1] at hc
    have hec := Option.some.inj hc
    have h2 : (if env.skipEXIF then "" else exifValue env (dir ++ f)) ≠
        mTimeValue env (dir ++ f) := hec ▸ hne
    simp [h1, h2, touchFile_trace, hasTouch_append, hasTouch,
      apply_ite PFResult.trace, apply_ite hasTouch, hasTouch_pre]
  · rw [if_neg h1] at hc
    by_cases h4 : parseFileName f ≠ ""
    · rw [if_pos h4] at hc
      have hpc := Option.some.inj hc
      have h5 : parseFileName f ≠ mTimeValue env (dir ++ f) := hpc ▸ hne
      simp [h1, h4, h5, parseFileNameRun_fst, touchFile_trace,
        hasTouch_append, hasTouch, apply_ite PFResult.trace, apply_ite hasTouch,
        hasTouch_pre]
    · rw [if_neg h4] at hc
      simp at hc

theorem parseFileNameRun_errors (st : RunState) (f : String) :
    (parseFileNameRun st f).2.errors =
      st.errors + (if parseFileName f = "" then 1 else 0) := by
  by_cases h : parseFileName f = "" <;> simp [parseFileNameRun, h]

theorem touchFile_st_errors (env : Env) (st : RunState) (stamp file : String) :
    (touchFile env st stamp file).2.1.errors =
      st.errors + (if env.touchOk stamp file then 0 else 1) := by
  by_cases h : env.touchOk stamp file <;> simp [touchFile, h]

theorem processFile_errors_lower (env : Env) (st : RunState) (f dir : String) :
    st.errors + statErrBump env (dir ++ f) ≤ (processFile env st f dir).st.errors := by
  unfold processFile
  split_ifs <;>
    simp [parseFileNameRun_fst, parseFileNameRun_errors, touchFile_st_errors,
      touchFile_fst, apply_ite RunState.errors, apply_ite PFResult.st] <;>
    split_ifs <;> omega



/-- C6 (amended): when the stat capability fails for an item, the current
timestamp becomes the empty string and the error counter increments, but the
item is NOT skipped: processing continues, and whenever a candidate
timestamp was resolved (necessarily nonempty) it is compared against `""`
and a touch call IS attempted. -/
theorem C6_stat_failure_no_skip (env : Env) (st : RunState) (f dir : String)
    (hstat : env.statRaw (dir ++ f) = none) :
    mTimeValue env (dir ++ f) = "" ∧
    st.errors + 1 ≤ (processFile env st f dir).st.errors ∧
    (∀ c, resolveCandidate env f dir = some c →
      hasTouch (processFile env st f dir).trace = true) := by
  have hmt : mTimeValue env (dir ++ f) = "" := by
    simp [mTimeValue, hstat]
  refine ⟨hmt, ?_, ?_⟩
  · have h := processFile_errors_lower env st f dir
    have hb : statErrBump env (dir ++ f) = 1 := by
      simp [statErrBump, hstat]
    omega
  · intro c hc
    have hne : c ≠ mTimeValue env (dir ++ f) := by
      rw [hmt]
      exact resolveCandidate_ne_empty env f dir c hc
    exact processFile_touch_on_ne env st f dir c hc hne

theorem processFile_cases_exit (env : Env) (st : RunState) (f dir : String) :
    ((processFile env st f dir).outcome = .writeError ∧
      (processFile env st f dir).st.exitCode = 1) ∨
    ((processFile env st f dir).outcome ≠ .writeError ∧
      (processFile env st f dir).st.exitCode = st.exitCode) := by
  unfold processFile
  simp only [parseFileNameRun_fst]
  split_ifs <;>
    simp [parseFileNameRun_exitCode, touchFile_st_exitCode]

theorem processFile_exitCode_delta (env : Env) (st : RunState) (f dir : String) :
    (processFile env st f dir).st.exitCode =
      (if (processFile env st f dir).outcome = .writeError then 1
       else st.exitCode) := by
  rcases processFile_cases_exit env st f dir with ⟨h1, h2⟩ | ⟨h1, h2⟩
  · rw [h2, if_pos h1]
  · rw [h2, if_neg h1]

theorem processFile_cases_changed (env : Env) (st : RunState) (f dir : String) :
    ((processFile env st f dir).outcome = .changed ∧
      (processFile env st f dir).st.summaryFiles = st.summaryFiles ++ [f] ∧
      (processFile env st f dir).st.processed = st.processed + 1) ∨
    ((processFile env st f dir).outcome ≠ .changed ∧
      (processFile env st f dir).st.summaryFiles = st.summaryFiles ∧
      (processFile env st f dir).st.processed = st.processed) := by
  unfold processFile
  simp only [parseFileNameRun_fst]
  split_ifs <;>
    simp [parseFileNameRun_summaryFiles, parseFileNameRun_processed,
      touchFile_st_summaryFiles, touchFile_st_processed]

theorem processFile_summary_delta (env : Env) (st : RunState) (f dir : String) :
    (processFile env st f dir).st.summaryFiles =
      st.summaryFiles ++
        (if (processFile env st f dir).outcome = .changed then [f] else []) ∧
    (processFile env st f dir).st.processed =
      st.processed +
        (if (processFile env st f dir).outcome = .changed then 1 else 0) := by
  rcases processFile_cases_changed env st f dir with ⟨h1, h2, h3⟩ | ⟨h1, h2, h3⟩
  · rw [h2, h3, if_pos h1, if_pos h1]
    exact ⟨rfl, rfl⟩
  · rw [h2, h3, if_neg h1, if_neg h1]
    simp

theorem runBatch_outcomes_length (env : Env) (dir : String) (files : List String)
    (st : RunState) :
    (runBatch env dir files st).2.2.length = files.length := by
  induction files generalizing st with
  | nil => rfl
  | cons f fs ih => simp [runBatch, ih]

theorem runBatch_exitCode (env : Env) (dir : String) (files : List String)
    (st : RunState) :
    (runBatch env dir files st).1.exitCode =
      (if Outcome.writeError ∈ (runBatch env dir files st).2.2 then 1
       else st.exitCode) := by
  induction files generalizing st with
  | nil => simp [runBatch]
  | cons f fs ih =>
    rw [runBatch]
    by_cases hmem : Outcome.writeError ∈ (runBatch env dir fs (processFile env st f dir).st).2.2
    · simp [hmem, ih]
    · by_cases ho : (processFile env st f dir).outcome = Outcome.writeError
      · simp [hmem, ho, ih, processFile_exitCode_delta]
      · simp [hmem, ho, ih, processFile_exitCode_delta]
        rw [if_neg (fun hh => ho hh.symm)]



theorem changed_flag_false {o : Outcome} (h : o ≠ .changed) :
    (match o with | Outcome.changed => true | _ => false) = false := by
  cases o with
  | changed => exact absurd rfl h
  | skipped => rfl
  | parseError => rfl
  | writeError => rfl

theorem runBatch_summary_acc (env : Env) (dir : String) (files : List String)
    (st : RunState) :
    (runBatch env dir files st).1.summaryFiles =
      st.summaryFiles ++ changedNames env dir files ∧
    (runBatch env dir files st).1.processed =
      st.processed + (changedNames env dir files).length := by
  induction files generalizing st with
  | nil => simp [runBatch, changedNames]
  | cons f fs ih =>
    rw [runBatch]
    have hd := processFile_summary_delta env st f dir
    have houtc : (processFile env st f dir).outcome = outcomeOf env f dir :=
      (processFile_outcome_indep env st initState f dir).1
    rw [houtc] at hd
    by_cases hch : outcomeOf env f dir = .changed
    · have hcons : changedNames env dir (f :: fs) = f :: changedNames env dir fs := by
        simp [changedNames, List.filter_cons, hch]
      have h1 := ih (processFile env st f dir).st
      rw [hcons]
      constructor
      · rw [h1.1, hd.1, if_pos hch]
        simp
      · rw [h1.2, hd.2, if_pos hch]
        simp [Nat.add_assoc, Nat.add_comm 1]
    · have hcons : changedNames env dir (f :: fs) = changedNames env dir fs := by
        simp [changedNames, List.filter_cons, changed_flag_false hch]
      have h1 := ih (processFile env st f dir).st
      rw [hcons]
      constructor
      · rw [h1.1, hd.1, if_neg hch]
        simp
      · rw [h1.2, hd.2, if_neg hch]
        simp

/-- C7 (amended): the run's exit status is non-zero if and only if at least
one WriteError outcome occurred; parse errors leave the exit status at zero;
and no failure aborts the batch — every file contributes exactly one
outcome. -/
theorem C7_exit_nonzero_iff_write_error (env : Env) (dir : String) (files : List String) :
    ((runBatch env dir files initState).1.exitCode ≠ 0 ↔
      Outcome.writeError ∈ (runBatch env dir files initState).2.2) ∧
    (runBatch env dir files initState).2.2.length = files.length := by
  constructor
  · rw [runBatch_exitCode]
    by_cases hmem : Outcome.writeError ∈ (runBatch env dir files initState).2.2
    · simp [hmem]
    · simp [hmem, initState]
  · exact runBatch_outcomes_length env dir files initState

/-- C9: after a run, the summary object's `files` list is exactly the list
of changed item names in processing order, its length equals the `processed`
counter, and the artifact is persisted (at most once) with `date` equal to
the run's recorded start time, exactly when at least one item changed, the
feature is not disabled, and the write succeeds. -/
theorem C9_summary_artifact (env : Env) (dir : String) (files : List String) :
    (runBatch env dir files initState).1.summaryFiles = changedNames env dir files ∧
    (runBatch env dir files initState).1.summaryFiles.length =
      (runBatch env dir files initState).1.processed ∧
    persistedSummary env (runBatch env dir files initState).1 =
      (if 0 < (runBatch env dir files initState).1.processed ∧
          env.skipSummary = false ∧ env.summaryWriteOk = true
       then some ⟨env.currentDate, changedNames env dir files⟩ else none) := by
  have h := runBatch_summary_acc env dir files initState
  have h1 : (runBatch env dir files initState).1.summaryFiles =
      changedNames env dir files := by
    rw [h.1]
    simp [initState]
  have h2 : (runBatch env dir files initState).1.processed =
      (changedNames env dir files).length := by
    rw [h.2]
    simp [initState]
  refine ⟨h1, by rw [h1, h2], ?_⟩
  rw [persistedSummary, h1]



/-- C8 (amended): the exiftool capability is invoked exactly when it was
detected at run start AND the full path matches
`/(?:jpe?g)|(?:png)|(?:gif)$/i` — i.e. contains `jpg`, `jpeg` or `png`
anywhere, or ends in `gif`, case-insensitively (only the `gif` alternative
is anchored, so some video files qualify); otherwise the resolver yields the
Absent result (empty string) without any invocation. -/
theorem C8_exif_guard (env : Env) (st : RunState) (file : String) :
    ((Effect.exifCall file ∈ (getExifData env st file).2.2) ↔
      (env.supportsExif = true ∧ imageRegexTest file = true)) ∧
    (¬(env.supportsExif = true ∧ imageRegexTest file = true) →
      (getExifData env st file).1 = "") := by
  constructor
  · show Effect.exifCall file ∈ exifTrace env file ↔ _
    unfold exifTrace
    by_cases h1 : env.supportsExif = true <;>
      by_cases h2 : imageRegexTest file = true <;> simp [h1, h2]
  · intro h
    show exifValue env file = ""
    unfold exifValue
    by_cases h1 : env.supportsExif = true
    · by_cases h2 : imageRegexTest file = true
      · exact absurd ⟨h1, h2⟩ h
      · simp [h1, h2]
    · simp [h1]

/-- C10: a subdirectory of a year directory whose name is neither an
English nor a Romanian month name (the code lists beyond their `dummy`
placeholder) and does not both contain `--` and contain `all` or `toate`
receives no modification-time write: the subdirectory loop emits no
`utimes` effect for it. -/
theorem C10_no_write_for_unrecognized_subdir (year : Nat) (name : String) (md : String → Bool)
    (hEn : ¬ name ∈ monthsEn.drop 1) (hRo : ¬ name ∈ monthsRo.drop 1)
    (hMark : ¬(containsSub name "--" = true ∧
      (containsSub name "toate" = true ∨ containsSub name "all" = true))) :
    processSubdir year name md = [] := by
  have hmonth : subdirMonth name = 0 := by
    simp only [subdirMonth]
    by_cases hr : monthsRo.contains name
    · have hmem : name ∈ monthsRo := by simpa using hr
      have hdummy : name = "dummy" := by
        simp only [monthsRo, List.mem_cons, List.not_mem_nil, or_false] at hmem
        rcases hmem with h|h|h|h|h|h|h|h|h|h|h|h|h
        · exact h
        all_goals (exfalso; apply hRo; simp [monthsRo, h])
      rw [if_pos hr, hdummy]
      decide
    · rw [if_neg hr]
      by_cases he : monthsEn.contains name
      · have hmem : name ∈ monthsEn := by simpa using he
        have hdummy : name = "dummy" := by
          simp only [monthsEn, List.mem_cons, List.not_mem_nil, or_false] at hmem
          rcases hmem with h|h|h|h|h|h|h|h|h|h|h|h|h
          · exact h
          all_goals (exfalso; apply hEn; simp [monthsEn, h])
        rw [if_pos he, hdummy]
        decide
      · rw [if_neg he]
  have hmark : allMarker name = false := by
    unfold allMarker
    cases hdd : containsSub name "--" with
    | false => rfl
    | true =>
      cases ht : containsSub name "toate" with
      | true => exact absurd ⟨hdd, Or.inl ht⟩ hMark
      | false =>
        cases ha : containsSub name "all" with
        | true => exact absurd ⟨hdd, Or.inr ha⟩ hMark
        | false => rfl
  simp [processSubdir, hmonth, hmark]

/-! ## Claims -/

/-- C1 (counterexample): `parseFileName` does NOT re-insert `-` separators
into a separator-free date digit run.  `"20141225.mp4"` parses to
`"20141225 00:00:00"`, not to the claimed `"2014-12-25 00:00:00"`. -/
theorem C1_counterexample :
    parseFileName "20141225.mp4" = "20141225 00:00:00" ∧
    parseFileName "20141225.mp4" ≠ "2014-12-25 00:00:00" := by
  constructor
  · decide
  · decide

/-- C1 (amended): for every filename whose matched date group is a
separator-free digit run, `parseFileName` keeps that digit run verbatim as
the date part (the `replace(/[^\d]/g, '-')` normalization substitutes `-`
for existing non-digits only and inserts nothing), and
`"20141225.mp4"` yields `"20141225 00:00:00"`. -/
theorem C1_date_run_kept_verbatim (fn g1 g2 : List Char)
    (hexec : execRegex matchTSAt (jsSlice4 fn) = some (g1, g2))
    (hdig : g1.all Char.isDigit = true) :
    parseFileNameL fn = g1 ++ ' ' :: timeFromGroup g2 ∧
    parseFileName "20141225.mp4" = "20141225 00:00:00" := by
  constructor
  · rw [parseFileNameL, hexec]
    simp only [dateFromGroup_all_digits hdig]
  · decide

/-- C1 (witness): the amended theorem applied to `"20141225.mp4"` itself,
whose date group is the separator-free run `20141225` and whose time group
is empty. -/
theorem C1_witness :
    execRegex matchTSAt (jsSlice4 ['2','0','1','4','1','2','2','5','.','m','p','4']) =
      some (['2','0','1','4','1','2','2','5'], []) ∧
    parseFileNameL ['2','0','1','4','1','2','2','5','.','m','p','4'] =
      ['2','0','1','4','1','2','2','5'] ++ ' ' :: timeFromGroup [] := by
  refine ⟨by decide, ?_⟩
  exact (C1_date_run_kept_verbatim
    ['2','0','1','4','1','2','2','5','.','m','p','4']
    ['2','0','1','4','1','2','2','5'] []
    (by decide) (by decide)).1

/-- C2 (code evaluation at the failing input): the year and "all" targets are
as claimed, but a month subdirectory's target day is
`new Date(year, month - 1, 0).getDate()` — the last day of the *previous*
month.  `march` under `2021` resolves to `2021-03-28T23:59:59` (28 = last
day of February), not to the claimed `2021-03-31T23:59:59`; `ianuarie`
agrees with the claim only because December has 31 days; `february` would
even produce day 31 (an invalid date whose `toISOString()` throws). -/
theorem C2_code_eval :
    yearDirTarget 2021 = "2021-12-31T23:59:59" ∧
    allDirTarget 2021 = "2021-01-01T00:00:01" ∧
    subdirMonth "march" = 3 ∧
    subdirMonth "ianuarie" = 1 ∧
    monthDirTarget 2021 1 = "2021-01-31T23:59:59" ∧
    monthDirTarget 2021 3 = "2021-03-28T23:59:59" ∧
    monthDirTarget 2021 3 ≠ "2021-03-31T23:59:59" ∧
    daysInMonth 2021 3 = 31 ∧
    jsLastDayArg 2021 3 = 28 ∧
    jsLastDayArg 2021 2 = 31 ∧
    daysInMonth 2021 2 = 28 := by
  refine ⟨by decide, by decide, by decide, by decide, by decide, by decide,
    by decide, by decide, by decide, by decide, by decide⟩

/-- C3: for every filename that, after stripping a 4-character extension, is
exactly canonical `YYYY-MM-DD HH:mm:ss`, both revisions' parsers return the
canonical string unchanged; and `"2014-12-25 11-48-02.jpg"` parses
(timestamp.js) to `"2014-12-25 11:48:02"`. -/
theorem C3_canonical_identity
    (y1 y2 y3 y4 m1 m2 d1 d2 h1 h2 n1 n2 s1 s2 : Char) (ext : List Char)
    (hy1 : y1.isDigit = true) (hy2 : y2.isDigit = true)
    (hy3 : y3.isDigit = true) (hy4 : y4.isDigit = true)
    (hm1 : m1.isDigit = true) (hm2 : m2.isDigit = true)
    (hd1 : d1.isDigit = true) (hd2 : d2.isDigit = true)
    (hh1 : h1.isDigit = true) (hh2 : h2.isDigit = true)
    (hn1 : n1.isDigit = true) (hn2 : n2.isDigit = true)
    (hs1 : s1.isDigit = true) (hs2 : s2.isDigit = true)
    (hext : ext.length = 4) :
    (parseFileNameL ([y1,y2,y3,y4,'-',m1,m2,'-',d1,d2,' ',h1,h2,':',n1,n2,':',s1,s2] ++ ext) =
       [y1,y2,y3,y4,'-',m1,m2,'-',d1,d2,' ',h1,h2,':',n1,n2,':',s1,s2] ∧
     parseFileNameV2L ([y1,y2,y3,y4,'-',m1,m2,'-',d1,d2,' ',h1,h2,':',n1,n2,':',s1,s2] ++ ext) =
       [y1,y2,y3,y4,'-',m1,m2,'-',d1,d2,' ',h1,h2,':',n1,n2,':',s1,s2]) ∧
    parseFileName "2014-12-25 11-48-02.jpg" = "2014-12-25 11:48:02" := by
  have hslice := jsSlice4_append
    (l := [y1,y2,y3,y4,'-',m1,m2,'-',d1,d2,' ',h1,h2,':',n1,n2,':',s1,s2]) hext
  refine ⟨⟨?_, ?_⟩, by decide⟩
  · have hexec := execRegex_head (matchTS_canon y1 y2 y3 y4 m1 m2 d1 d2 h1 h2 n1 n2 s1 s2
      hy1 hy2 hy3 hy4 hm1 hm2 hd1 hd2 hh1 hh2 hn1 hn2 hs1 hs2)
    rw [parseFileNameL, hslice, hexec]
    simp only [dateFromGroup_canon y1 y2 y3 y4 m1 m2 d1 d2 hy1 hy2 hy3 hy4 hm1 hm2 hd1 hd2,
      timeFromGroup_canon h1 h2 n1 n2 s1 s2 hh1 hh2 hn1 hn2 hs1 hs2]
    rfl
  · have hexec := execRegex_head (matchTS2_canon y1 y2 y3 y4 m1 m2 d1 d2 h1 h2 n1 n2 s1 s2
      hy1 hy2 hy3 hy4 hm1 hm2 hd1 hd2 hh1 hh2 hn1 hn2 hs1 hs2)
    rw [parseFileNameV2L, hslice, hexec]
    simp only [dateFromGroup_canon y1 y2 y3 y4 m1 m2 d1 d2 hy1 hy2 hy3 hy4 hm1 hm2 hd1 hd2,
      timeFromGroup_canon h1 h2 n1 n2 s1 s2 hh1 hh2 hn1 hn2 hs1 hs2]
    rfl

/-- C3 (witness): identity on the concrete canonical filename
`2014-12-25 11:48:02.jpg`. -/
theorem C3_witness :
    parseFileNameL (['2','0','1','4','-','1','2','-','2','5',' ','1','1',':','4','8',':','0','2'] ++ ['.','j','p','g']) =
      ['2','0','1','4','-','1','2','-','2','5',' ','1','1',':','4','8',':','0','2'] :=
  (C3_canonical_identity '2' '0' '1' '4' '1' '2' '2' '5' '1' '1' '4' '8' '0' '2'
    ['.','j','p','g'] (by decide) (by decide) (by decide) (by decide) (by decide)
    (by decide) (by decide) (by decide) (by decide) (by decide) (by decide)
    (by decide) (by decide) (by decide) (by decide)).1.1

/-- C4 (counterexample): a matched time group with six digits and zero
separators (`"20141225 114802.jpg"` gives time group `114802`) is not
re-chunked: the parser defaults the time to `00:00:00` and discards the
digits, so the claim's "at most one separator" condition is wrong. -/
theorem C4_counterexample :
    execRegex matchTSAt (jsSlice4 "20141225 114802.jpg".data) =
      some ("20141225".data, "114802".data) ∧
    ("114802".data.filter (fun c => !c.isDigit)).length = 0 ∧
    ("114802".data.filter Char.isDigit).length = 6 ∧
    parseFileName "20141225 114802.jpg" = "20141225 00:00:00" ∧
    parseFileName "20141225 114802.jpg" ≠ "20141225 11:48:02" := by
  refine ⟨by decide, by decide, by decide, by decide, by decide⟩

/-- C4 (amended): writing `t0` for the trimmed, colon-substituted time
group, the parser re-chunks exactly when `t0` contains exactly one
separator: then the digits of `t0` are grouped in (up to) twos, rejoined
with `:`, and `:00` is appended when shorter than 8 characters; with zero
separators the time defaults to `00:00:00` even when digits are present. -/
theorem C4_time_branches (g2 : List Char) :
    ((((jsTrim g2).map (fun c => if c.isDigit then c else ':')).filter
        (fun c => !c.isDigit)).length = 1 →
      timeFromGroup g2 =
        (if (joinColon (chunk2 (((jsTrim g2).map (fun c => if c.isDigit then c else ':')).filter Char.isDigit))).length ≠ 0 ∧
            (joinColon (chunk2 (((jsTrim g2).map (fun c => if c.isDigit then c else ':')).filter Char.isDigit))).length < 8
         then joinColon (chunk2 (((jsTrim g2).map (fun c => if c.isDigit then c else ':')).filter Char.isDigit)) ++ [':','0','0']
         else joinColon (chunk2 (((jsTrim g2).map (fun c => if c.isDigit then c else ':')).filter Char.isDigit)))) ∧
    ((((jsTrim g2).map (fun c => if c.isDigit then c else ':')).filter
        (fun c => !c.isDigit)).length = 0 →
      timeFromGroup g2 = ['0','0',':','0','0',':','0','0']) := by
  constructor
  · intro h1
    rw [timeFromGroup, sepCount_one_sep h1]
    norm_num
  · intro h0
    rw [timeFromGroup, sepCount, sepCountAux_no_sep h0 false]
    norm_num

/-- C4 (witness): the amended theorem applied to the time group `11-48`
(one separator): the digits re-chunk to `11:48` and seconds are padded;
and to the time group `114802` (zero separators): the default `00:00:00`. -/
theorem C4_witness :
    timeFromGroup ['1','1','-','4','8'] = ['1','1',':','4','8',':','0','0'] ∧
    timeFromGroup ['1','1','4','8','0','2'] = ['0','0',':','0','0',':','0','0'] := by
  constructor
  · have h := (C4_time_branches ['1','1','-','4','8']).1 (by decide)
    rw [h]
    decide
  · exact (C4_time_branches ['1','1','4','8','0','2']).2 (by decide)

/-- C5 (witness): in `envSkipDemo` the candidate parsed from
`2014-12-25 11-48-02.jpg` equals the stat result, so the item is Skipped
with no touch; and a repeated reconciliation is Skipped again. -/
theorem C5_witness :
    ((processFile envSkipDemo initState "2014-12-25 11-48-02.jpg" "/d/").outcome = .skipped ∧
     hasTouch (processFile envSkipDemo initState "2014-12-25 11-48-02.jpg" "/d/").trace = false ∧
     (processFile envSkipDemo initState "2014-12-25 11-48-02.jpg" "/d/").st.skipped =
       initState.skipped + 1) ∧
    ((processFile (envAfterTouch envSkipDemo
        (processFile envSkipDemo initState "2014-12-25 11-48-02.jpg" "/d/").trace)
        initState "2014-12-25 11-48-02.jpg" "/d/").outcome = .skipped ∧
     hasTouch (processFile (envAfterTouch envSkipDemo
        (processFile envSkipDemo initState "2014-12-25 11-48-02.jpg" "/d/").trace)
        initState "2014-12-25 11-48-02.jpg" "/d/").trace = false) := by
  have hres : resolveCandidate envSkipDemo "2014-12-25 11-48-02.jpg" "/d/" =
      some "2014-12-25 11:48:02" := by decide
  constructor
  · exact (C5_skipped_no_write_and_idempotent envSkipDemo initState initState
      "2014-12-25 11-48-02.jpg" "/d/" "2014-12-25 11:48:02").1 hres (by decide)
  · refine (C5_skipped_no_write_and_idempotent envSkipDemo initState initState
      "2014-12-25 11-48-02.jpg" "/d/" "2014-12-25 11:48:02").2 (Or.inr (by decide)) ?_
    intro c2 hc2
    have hc := Option.some.inj (hres.symm.trans hc2)
    rw [← hc]
    decide

/-- C6 (counterexample): in `envStatFailDemo` the stat of `/d/a.jpg` fails,
yet the item is not skipped: the EXIF candidate is compared against the
empty string and a touch call occurs — the run even counts the item as
changed. -/
theorem C6_counterexample :
    envStatFailDemo.statRaw "/d/a.jpg" = none ∧
    hasTouch (processFile envStatFailDemo initState "a.jpg" "/d/").trace = true ∧
    (processFile envStatFailDemo initState "a.jpg" "/d/").outcome = .changed := by
  refine ⟨rfl, by decide, by decide⟩

/-- C6 (witness): the amended theorem applied to `envStatFailDemo` and
`a.jpg`. -/
theorem C6_witness :
    mTimeValue envStatFailDemo "/d/a.jpg" = "" ∧
    initState.errors + 1 ≤ (processFile envStatFailDemo initState "a.jpg" "/d/").st.errors ∧
    hasTouch (processFile envStatFailDemo initState "a.jpg" "/d/").trace = true := by
  have h := C6_stat_failure_no_skip envStatFailDemo initState "a.jpg" "/d/" rfl
  exact ⟨h.1, h.2.1, h.2.2 "2019-07-04 10:20:30" (by decide)⟩

/-- C7 (counterexample): a run over the single unparseable file
`garbage.jpg` records an unresolved ParseError (two error counts) but exits
with status 0 — refuting "non-zero iff WriteError or unresolved
ParseError". -/
theorem C7_counterexample :
    (runBatch envParseDemo "/d/" ["garbage.jpg"] initState).1.exitCode = 0 ∧
    (runBatch envParseDemo "/d/" ["garbage.jpg"] initState).2.2 = [.parseError] ∧
    (runBatch envParseDemo "/d/" ["garbage.jpg"] initState).1.errors = 2 := by
  refine ⟨by decide, by decide, by decide⟩

/-- C8 (counterexample): `clip-png.mp4` is a video-kind file (extension
`.mp4`), yet with exiftool present the resolver IS invoked on it (its name
contains `png`, and only the `gif` alternative of the image test is
anchored) and even yields a timestamp. -/
theorem C8_counterexample :
    endsWithL ".mp4".data "clip-png.mp4".data = true ∧
    Effect.exifCall "/d/clip-png.mp4" ∈
      (getExifData envStatFailDemo initState "/d/clip-png.mp4").2.2 ∧
    (getExifData envStatFailDemo initState "/d/clip-png.mp4").1 =
      "2019-07-04 10:20:30" := by
  refine ⟨by decide, by decide, by decide⟩

/-- C8 (witness): the guard theorem applied to `envParseDemo` (no exiftool)
and the file `x.txt`: no invocation, empty result. -/
theorem C8_witness :
    (Effect.exifCall "x.txt" ∈ (getExifData envParseDemo initState "x.txt").2.2 ↔
      (envParseDemo.supportsExif = true ∧ imageRegexTest "x.txt" = true)) ∧
    (getExifData envParseDemo initState "x.txt").1 = "" := by
  have h := C8_exif_guard envParseDemo initState "x.txt"
  exact ⟨h.1, h.2 (by decide)⟩

/-- C10 (witness): the frame theorem applied to the subdirectory name
`vacation` under year 2021, with an always-true difference oracle. -/
theorem C10_witness :
    processSubdir 2021 "vacation" (fun _ => true) = [] :=
  C10_no_write_for_unrecognized_subdir 2021 "vacation" (fun _ => true)
    (by decide) (by decide) (by decide)

end Timestamp

